import Mathlib

/-!
Shallow embedding of the strava-API client (garmin_mod/dataConnector.py and
garmin_mod/decorFunc.py).

HTTP I/O is modelled by an environment oracle: `Env.httpResp n` is the
response delivered to the n-th `requests.get` issued during a run, and
`Env.authResp n` is the outcome of the n-th `requests.post` to the OAuth
token endpoint (`none` models a transport exception raised by the post;
a response whose `jsonObj` is `none` models a body on which `.json()`
raises).  Mutable session state, call counters, the list of GET requests
issued, and the lines printed are threaded explicitly through every
operation; Python exceptions are modelled by `Except Err` (the state at
the moment of the raise is kept, since Python exceptions do not roll
back mutations).
-/

/-- Python-level JSON scalar values as they appear in parsed bodies. -/
inductive JVal where
  | jbool (b : Bool)
  | jint (n : Int)
  | jstr (s : String)
deriving DecidableEq, Repr

/-- A parsed JSON record (Python dict), as an association list. -/
abbrev Record := List (String × JVal)

/-- Python truthiness of a JSON scalar (`bool(v)`). -/
def truthy : JVal → Bool
  | .jbool b => b
  | .jint n => n != 0
  | .jstr s => s != ""

/-- Python truthiness of an optional value (`None` is falsy). -/
def truthyO : Option JVal → Bool
  | none => false
  | some v => truthy v

/-- Python `str(v)` for a JSON scalar. -/
def pyStr : JVal → String
  | .jbool true => "True"
  | .jbool false => "False"
  | .jint n => toString n
  | .jstr s => s

/-- Python `str(v)` where `v` may be `None`. -/
def pyStrO : Option JVal → String
  | none => "None"
  | some v => pyStr v

/-- Python dict lookup (`d.get(k)` / membership for `d[k]`). -/
def lookupJ (k : String) : Record → Option JVal
  | [] => none
  | (k₁, v) :: rest => if k₁ = k then some v else lookupJ k rest

/-- A `requests` response as observed by this client: its status code and
the result of `.json()` when the body parses as a list of records
(`none` when `.json()` or list indexing of the parsed body would raise). -/
structure Response where
  status_code : Int
  jsonList : Option (List Record)
deriving DecidableEq, Repr

/-- A response to the OAuth token-exchange POST: status code and the result
of `.json()` when the body parses as a record (`none` when `.json()` raises). -/
structure AuthHttpResp where
  status_code : Int
  jsonObj : Option Record
deriving DecidableEq, Repr

/-- One GET request as issued by the client: full URL, the headers taken
from `self.headers` at call time, and the optional `keys` query parameter. -/
structure Request where
  url : String
  reqHeaders : List (String × String)
  params : Option String
deriving DecidableEq, Repr

/-- Environment oracle delivering HTTP responses by call index. -/
structure Env where
  httpResp : Nat → Response
  authResp : Nat → Option AuthHttpResp

/-- The mutable fields of a `StravaDataConnector` instance.  `base_url` is a
class attribute in the source; it is carried here as an instance field so
that its (non-)mutation is expressible. -/
structure Session where
  config_parameters : List (String × String)
  access_token : Option JVal
  defaultActivity_id : Option JVal
  defaultActivity_name : Option JVal
  defaultActivity_startDateTime : Option JVal
  base_url : String
deriving DecidableEq, Repr

/-- Full program state: the session plus counters of HTTP GET and auth POST
calls made so far, the log of GET requests issued, and printed lines. -/
structure St where
  sess : Session
  httpCount : Nat
  authCount : Nat
  requests : List Request
  prints : List String
deriving DecidableEq, Repr

/-- Python exceptions that the modelled code can raise. -/
inductive Err where
  | network
  | jsonParse
  | indexError
  | keyError (k : String)
  | attributeError
  | unboundLocal
deriving DecidableEq, Repr

/-- The effect shape of every operation: read the environment, transform the
state, and either return a value or raise. -/
def M (α : Type) : Type := Env → St → Except Err α × St

def mPure {α : Type} (a : α) : M α := fun _ st => (.ok a, st)

def mBind {α β : Type} (x : M α) (f : α → M β) : M β := fun env st =>
  match x env st with
  | (.ok a, st₁) => f a env st₁
  | (.error e, st₁) => (.error e, st₁)

def mThrow {α : Type} (e : Err) : M α := fun _ st => (.error e, st)

def mPrint (s : String) : M Unit := fun _ st =>
  (.ok (), { st with prints := st.prints ++ [s] })

/-- Read `self` (the session) without changing anything. -/
def mGetSession : M Session := fun _ st => (.ok st.sess, st)

/-- `base_url` class attribute of `StravaDataConnector`. -/
def base_url : String := "http://www.strava.com/api/v3"

/-- `StravaDataConnector.__init__`: stores the parsed credentials, clears the
token, sets the three `defaultActivity` slots to `None`, then stores the
caller-supplied token. -/
def mkStravaDataConnector (config_parameters : List (String × String))
    (access_token : Option JVal := none) : Session :=
  { config_parameters := config_parameters
    access_token := access_token
    defaultActivity_id := none
    defaultActivity_name := none
    defaultActivity_startDateTime := none
    base_url := base_url }

/-- `StravaDataConnector.headers` property: built from the current token at
every read; an absent token yields the literal bearer string "Bearer None". -/
def headers (s : Session) : List (String × String) :=
  [("Authorization", "Bearer " ++ pyStrO s.access_token),
   ("Connection", "close")]

/-- One `requests.get` against `self.base_url ++ path`, reading
`self.headers` at call time and logging the request. -/
def httpGetPath (path : String) (params : Option String) : M Response :=
  fun env st =>
    (.ok (env.httpResp st.httpCount),
     { st with
        httpCount := st.httpCount + 1
        requests := st.requests ++
          [{ url := st.sess.base_url ++ path
             reqHeaders := headers st.sess
             params := params }] })

/-- `StravaDataConnector.authenticate`: POSTs the refresh-token grant, then
stores `response.json().get('access_token')` as the new token and returns
`self`.  A transport failure of the POST, or a body on which `.json()`
raises, propagates as an exception and leaves the token untouched. -/
def authenticate : M Session := fun env st =>
  let idx := st.authCount
  let st₁ := { st with authCount := st.authCount + 1 }
  match env.authResp idx with
  | none => (.error .network, st₁)
  | some r =>
    match r.jsonObj with
    | none => (.error .jsonParse, st₁)
    | some body =>
      let sess₁ := { st₁.sess with access_token := lookupJ "access_token" body }
      (.ok sess₁, { st₁ with sess := sess₁ })

/-- `"fetch_"` as a character pattern, for the `replace`/`in` string
operations of the source. -/
def fetchPat : List Char := "fetch_".toList

/-- Python `x.replace("fetch_", "")` on a character list: left-to-right
scan replacing every non-overlapping occurrence of the pattern.  When the
six-character pattern matches, the six matched characters are skipped (the
inner match's fallback arm is unreachable, since a six-character prefix
guarantees five more characters after the head). -/
def stripFetchAll : List Char → List Char
  | [] => []
  | c :: cs =>
    if fetchPat.isPrefixOf (c :: cs) then
      match cs with
      | _ :: _ :: _ :: _ :: _ :: rest => stripFetchAll rest
      | _ => []
    else c :: stripFetchAll cs

/-- Python substring test `pat in s` on character lists. -/
def subAt (pat : List Char) : List Char → Bool
  | [] => pat.isEmpty
  | c :: cs => pat.isPrefixOf (c :: cs) || subAt pat cs

/-- Python `"fetch_" in x`. -/
def containsFetch (x : String) : Bool := subAt fetchPat x.toList

/-- Python `x.replace("fetch_", "")` on strings. -/
def replaceFetch (x : String) : String := String.mk (stripFetchAll x.toList)

/-- The messages printed by one retry iteration. -/
def fetchingMsg (funcName : String) (i : Nat) : String :=
  "Fetching " ++ funcName ++ ": attempt " ++ toString i

def successMsg (funcName : String) : String :=
  "Successfully retrieved " ++ funcName ++ " data"

def unauthorisedMsg : String := "Unauthorised request - retrying..."

def limitMsg : String := "Request limit exceeded - no further requests"

/-- The loop body of `retry_request`'s `inside_func`, indexed by the number
of remaining iterations `rem` (the loop variable is `i = retry_count - rem + 1`).
On `i < retry_count` it runs the wrapped call; a 401 triggers one
synchronous `authenticate` and another iteration, anything else breaks.
The final iteration (`i = retry_count`) only prints the limit notice. -/
def retryAux (funcName : String) (inner : M Response) (retry_count : Nat) :
    Nat → Option Response → M (Option Response)
  | 0, last => mPure last
  | rem + 1, last =>
    let i := retry_count - rem
    match rem with
    | 0 =>
      mBind (mPrint limitMsg) fun _ =>
        retryAux funcName inner retry_count 0 last
    | rem₁ + 1 =>
      mBind (mPrint (fetchingMsg funcName i)) fun _ =>
      mBind inner fun result =>
      if result.status_code = 401 then
        mBind (mPrint unauthorisedMsg) fun _ =>
        mBind authenticate fun _ =>
          retryAux funcName inner retry_count (rem₁ + 1) (some result)
      else
        mBind (mPrint (successMsg funcName)) fun _ => mPure (some result)

/-- `retry_request(retry_count, errorCallback='authenticate')` applied to a
wrapped function whose `__code__.co_name` is `funcCoName`.  Returning with
`result` never assigned (possible only for `retry_count ≤ 1`) models
Python's `UnboundLocalError`. -/
def retry_request (retry_count : Nat) (funcCoName : String)
    (inner : M Response) : M Response :=
  mBind (retryAux (replaceFetch funcCoName) inner retry_count retry_count none)
    fun last =>
      match last with
      | some r => mPure r
      | none => mThrow .unboundLocal

/-- Body of `fetch_athlete`. -/
def fetch_athlete_inner : M Response := httpGetPath "/athlete" none

/-- `fetch_athlete` (retry-wrapped). -/
def fetch_athlete : M Response :=
  retry_request 3 "fetch_athlete" fetch_athlete_inner

/-- Body of `fetch_activities`. -/
def fetch_activities_inner : M Response := httpGetPath "/athlete/activities" none

/-- `fetch_activities` (retry-wrapped). -/
def fetch_activities : M Response :=
  retry_request 3 "fetch_activities" fetch_activities_inner

/-- `StravaDataConnector.getLastID(setDefault)`: fetch the activities list,
parse it, optionally overwrite the three `defaultActivity` slots from the
first entry, and return the first entry's id.  An empty list raises
(`data[0]`) before any slot is written. -/
def getLastID (setDefault : Bool) : M (Option JVal) :=
  mBind fetch_activities fun data =>
  match data.jsonList with
  | none => mThrow .jsonParse
  | some parsed =>
    match parsed with
    | [] => mThrow .indexError
    | first :: _ =>
      mBind
        (if setDefault then
          fun _ st =>
            (.ok (),
             { st with sess :=
                { st.sess with
                    defaultActivity_id := lookupJ "id" first
                    defaultActivity_name := lookupJ "name" first
                    defaultActivity_startDateTime :=
                      lookupJ "start_date_local" first } })
        else mPure ())
        fun _ => mPure (lookupJ "id" first)

/-- Body of `fetch_activity(act_id)`: the identifier-resolution block
(`if not act_id: ...`) followed by the GET against `/activities/{act_id}`. -/
def fetch_activity_inner (act_id : Option JVal) : M Response :=
  mBind mGetSession fun s =>
  if truthyO act_id then
    httpGetPath ("/activities/" ++ pyStrO act_id) none
  else if truthyO s.defaultActivity_id then
    mBind (mPrint "No activity provided - Getting default activity") fun _ =>
      httpGetPath ("/activities/" ++ pyStrO s.defaultActivity_id) none
  else
    mBind (mPrint "No activity id provided - fetching last activity") fun _ =>
    mBind (getLastID true) fun v =>
      httpGetPath ("/activities/" ++ pyStrO v) none

/-- `fetch_activity` (retry-wrapped). -/
def fetch_activity (act_id : Option JVal) : M Response :=
  retry_request 3 "fetch_activity" (fetch_activity_inner act_id)

/-- Python `if keys: keys = dict(keys=",".join(keys))` turned into the
optional query-parameter value. -/
def streamParams (keys : Option (List String)) : Option String :=
  match keys with
  | none => none
  | some ks => if ks.isEmpty then none else some (String.intercalate "," ks)

/-- Body of `fetch_stream(act_id, keys)`: the same identifier-resolution
block, then the GET against `/activities/{act_id}/streams` with the
optional comma-joined keys parameter. -/
def fetch_stream_inner (act_id : Option JVal) (keys : Option (List String)) :
    M Response :=
  mBind mGetSession fun s =>
  if truthyO act_id then
    httpGetPath ("/activities/" ++ pyStrO act_id ++ "/streams") (streamParams keys)
  else if truthyO s.defaultActivity_id then
    mBind (mPrint "No activity provided - Getting default activity") fun _ =>
      httpGetPath ("/activities/" ++ pyStrO s.defaultActivity_id ++ "/streams")
        (streamParams keys)
  else
    mBind (mPrint "No activity id provided - fetching last activity") fun _ =>
    mBind (getLastID true) fun v =>
      httpGetPath ("/activities/" ++ pyStrO v ++ "/streams") (streamParams keys)

/-- `fetch_stream` (retry-wrapped). -/
def fetch_stream (act_id : Option JVal) (keys : Option (List String)) :
    M Response :=
  retry_request 3 "fetch_stream" (fetch_stream_inner act_id keys)

/-- Body of `fetch_segmentsStarred`. -/
def fetch_segmentsStarred_inner : M Response := httpGetPath "/segments/starred" none

/-- `fetch_segmentsStarred` (retry-wrapped). -/
def fetch_segmentsStarred : M Response :=
  retry_request 3 "fetch_segmentsStarred" fetch_segmentsStarred_inner

/-- Body of `fetch_segments(act_id)`: the same identifier-resolution block,
then the GET against `/segments/{act_id}`. -/
def fetch_segments_inner (act_id : Option JVal) : M Response :=
  mBind mGetSession fun s =>
  if truthyO act_id then
    httpGetPath ("/segments/" ++ pyStrO act_id) none
  else if truthyO s.defaultActivity_id then
    mBind (mPrint "No activity provided - Getting default activity") fun _ =>
      httpGetPath ("/segments/" ++ pyStrO s.defaultActivity_id) none
  else
    mBind (mPrint "No activity id provided - fetching last activity") fun _ =>
    mBind (getLastID true) fun v =>
      httpGetPath ("/segments/" ++ pyStrO v) none

/-- `fetch_segments` (retry-wrapped). -/
def fetch_segments (act_id : Option JVal) : M Response :=
  retry_request 3 "fetch_segments" (fetch_segments_inner act_id)

/-- The four default projection keys of `get_activities_data`. -/
def defaultKeys : List String := ["start_date_local", "name", "id", "type"]

/-- The inner dict comprehension of `get_activities_data`:
`\x7bk: dic[k] for k in rel_keys\x7d`; the first absent key raises `KeyError`. -/
def projectRecord (keys : List String) (dic : Record) : Except Err Record :=
  match keys with
  | [] => .ok []
  | k :: ks =>
    match lookupJ k dic with
    | none => .error (.keyError k)
    | some v =>
      match projectRecord ks dic with
      | .error e => .error e
      | .ok rest => .ok ((k, v) :: rest)

/-- The outer list comprehension of `get_activities_data`, record by record. -/
def projectAll (keys : List String) : List Record → Except Err (List Record)
  | [] => .ok []
  | dic :: rest =>
    match projectRecord keys dic with
    | .error e => .error e
    | .ok r =>
      match projectAll keys rest with
      | .error e => .error e
      | .ok rs => .ok (r :: rs)

/-- `StravaDataConnector.get_activities_data(*args)`: fetch and parse the
activities list, then project every record to the requested keys (or to
the four default keys when no args are given). -/
def get_activities_data (args : List String) : M (List Record) :=
  mBind fetch_activities fun activities =>
  match activities.jsonList with
  | none => mThrow .jsonParse
  | some parsed =>
    let rel_keys := if args.isEmpty then defaultKeys else args
    match projectAll rel_keys parsed with
    | .error e => mThrow e
    | .ok out => mPure out

/-- The result of Python's `dir(self)` on a `StravaDataConnector` instance:
sorted attribute names (dunder and private names elided except those the
dispatch logic can observe; none of the elided names contain "fetch_"). -/
def dirSelf : List String :=
  ["__init__", "__repr__", "_access_token", "authenticate", "base_url",
   "config_parameters", "defaultActivity", "fetch_activities",
   "fetch_activity", "fetch_athlete", "fetch_segments",
   "fetch_segmentsStarred", "fetch_stream", "get_activities_data",
   "get_data", "getLastID", "headers", "read_configs"]

/-- The keyword arguments that the fetch operations consume; every
operation takes `**kwargs`, so extras are silently ignored. -/
structure Params where
  act_id : Option JVal := none
  keys : Option (List String) := none

/-- `getattr(self, fetchCall)(**kwargs)`: the name-to-method table. -/
def dispatchFetch (fetchCall : String) (p : Params) : M Response :=
  if fetchCall = "fetch_athlete" then fetch_athlete
  else if fetchCall = "fetch_activities" then fetch_activities
  else if fetchCall = "fetch_activity" then fetch_activity p.act_id
  else if fetchCall = "fetch_stream" then fetch_stream p.act_id p.keys
  else if fetchCall = "fetch_segmentsStarred" then fetch_segmentsStarred
  else if fetchCall = "fetch_segments" then fetch_segments p.act_id
  else mThrow .attributeError

/-- The operation listing printed on an unknown fetch type:
`[x.replace("fetch_","") for x in dir(self) if "fetch_" in x]`. -/
def availMethod : List String :=
  (dirSelf.filter containsFetch).map replaceFetch

def availMsg : String :=
  "Please choose one of the following: \n- " ++ String.intercalate "\n- " availMethod

/-- `StravaDataConnector.get_data(fetch_type, **kwargs)`: exact-match lookup
of `"fetch_" ++ fetch_type` in `dir(self)`; on a hit, call the method and
return its response; otherwise print the catalog and return `None`. -/
def get_data (fetch_type : String) (p : Params) : M (Option Response) :=
  let fetchCall := "fetch_" ++ fetch_type
  if fetchCall ∈ dirSelf then
    mBind (dispatchFetch fetchCall p) fun r => mPure (some r)
  else
    mBind (mPrint availMsg) fun _ => mPure none

/-! ### Specification predicates and sample inputs -/

/-- Every auth POST in the environment succeeds with a parseable body
(the scenario under which the retry loop's own accounting is observed). -/
def authBodiesOK (env : Env) : Prop :=
  ∀ n, ∃ r body, env.authResp n = some r ∧ r.jsonObj = some body

/-- The observable retry/re-auth contract of one wrapped operation: a
non-401 first response ends the loop with no re-auth; a 401 first response
leads to a second call, with one re-auth per 401 obtained (so at most two),
and the second response is returned even when it is itself a 401, after the
limit notice. -/
def C1Spec (a : M Response) : Prop :=
  ∀ env st, authBodiesOK env →
    ((env.httpResp st.httpCount).status_code ≠ 401 →
        (a env st).1 = .ok (env.httpResp st.httpCount) ∧
        (a env st).2.httpCount = st.httpCount + 1 ∧
        (a env st).2.authCount = st.authCount) ∧
    ((env.httpResp st.httpCount).status_code = 401 →
        (a env st).1 = .ok (env.httpResp (st.httpCount + 1)) ∧
        (a env st).2.httpCount = st.httpCount + 2 ∧
        (a env st).2.authCount = st.authCount +
          (if (env.httpResp (st.httpCount + 1)).status_code = 401 then 2 else 1) ∧
        (a env st).2.authCount ≤ st.authCount + 2 ∧
        ((env.httpResp (st.httpCount + 1)).status_code = 401 →
          limitMsg ∈ (a env st).2.prints))

/-- Sample credentials for concrete runs. -/
def sampleConfig : List (String × String) :=
  [("client_id", "42"), ("client_secret", "s3cr3t"), ("refresh_token", "rt")]

/-- A freshly constructed session with a seeded token. -/
def sessW : Session := mkStravaDataConnector sampleConfig (some (.jstr "tok0"))

/-- Initial run state over `sessW`. -/
def stW : St :=
  { sess := sessW, httpCount := 0, authCount := 0, requests := [], prints := [] }

/-- An environment in which every GET yields a 401 and every auth POST
succeeds. -/
def envAll401 : Env :=
  { httpResp := fun _ => { status_code := 401, jsonList := none }
    authResp := fun _ =>
      some { status_code := 200, jsonObj := some [("access_token", .jstr "t1")] } }

/-- The observable behaviour of one wrapped operation whose first HTTP call
does not return 401: exactly one GET is issued, no re-authentication
happens, the session is untouched, and the first response is returned
unmodified. -/
def C2Spec (a : M Response) (nm path : String) (params : Option String) : Prop :=
  ∀ env st, (env.httpResp st.httpCount).status_code ≠ 401 →
    a env st =
      (.ok (env.httpResp st.httpCount),
       { sess := st.sess
         httpCount := st.httpCount + 1
         authCount := st.authCount
         requests := st.requests ++
           [{ url := st.sess.base_url ++ path
              reqHeaders := headers st.sess
              params := params }]
         prints := st.prints ++ [fetchingMsg nm 1, successMsg nm] })

/-- An environment in which every GET succeeds with status 200 and an empty
JSON list body, and every auth POST succeeds. -/
def envOk200 : Env :=
  { httpResp := fun _ => { status_code := 200, jsonList := some [] }
    authResp := fun _ =>
      some { status_code := 200, jsonObj := some [("access_token", .jstr "t1")] } }

/-- An environment in which every auth POST fails with a transport error. -/
def envNet : Env :=
  { httpResp := fun _ => { status_code := 200, jsonList := some [] }
    authResp := fun _ => none }

/-- An environment in which the auth POST returns an HTTP error whose JSON
body carries no access-token field. -/
def envMissTok : Env :=
  { httpResp := fun _ => { status_code := 200, jsonList := some [] }
    authResp := fun _ =>
      some { status_code := 400, jsonObj := some [("message", .jstr "bad request")] } }

/-- The example record of the activities list: id 555, name "Ride". -/
def ride555 : Record :=
  [("id", .jint 555), ("name", .jstr "Ride"),
   ("start_date_local", .jstr "2024-01-01T08:00:00"), ("type", .jstr "Ride")]

/-- An environment whose GETs all succeed with the one-record list `[ride555]`. -/
def envList555 : Env :=
  { httpResp := fun _ => { status_code := 200, jsonList := some [ride555] }
    authResp := fun _ =>
      some { status_code := 200, jsonObj := some [("access_token", .jstr "t1")] } }

/-- A run state whose session has a cached default activity with id 7. -/
def stDef7 : St :=
  { sess := { sessW with
                defaultActivity_id := some (.jint 7)
                defaultActivity_name := some (.jstr "Morning Run")
                defaultActivity_startDateTime := some (.jstr "2023-12-31T07:00:00") }
    httpCount := 0, authCount := 0, requests := [], prints := [] }

/-- The URLs of the GET requests that one run of `a` adds to the log. -/
def newUrls {α : Type} (a : M α) (env : Env) (st : St) : List String :=
  (((a env st).2.requests).drop st.requests.length).map Request.url

/-- The common shape of the three identifier-resolving fetch bodies, with the
path builder and query parameters abstracted; each of
`fetch_activity_inner`, `fetch_stream_inner`, `fetch_segments_inner` is
definitionally an instance of it. -/
def resolverInner (pathFor : Option JVal → String) (params : Option String)
    (act_id : Option JVal) : M Response :=
  mBind mGetSession fun s =>
  if truthyO act_id then
    httpGetPath (pathFor act_id) params
  else if truthyO s.defaultActivity_id then
    mBind (mPrint "No activity provided - Getting default activity") fun _ =>
      httpGetPath (pathFor s.defaultActivity_id) params
  else
    mBind (mPrint "No activity id provided - fetching last activity") fun _ =>
    mBind (getLastID true) fun v =>
      httpGetPath (pathFor v) params

/-- The identifier-resolution policy of an identifier-scoped operation `op`
building its path with `pathFor`: a truthy supplied identifier is used
directly; otherwise a truthy cached default identifier is used; otherwise
the activities list is fetched once (`getLastID` with `setDefault = true`)
and its first entry's id is used, and the cached default is overwritten.
The non-fallback cases are stated under a non-401 first response so that a
single GET is issued and observed. -/
def ResolveSpec (op : Option JVal → M Response)
    (pathFor : Option JVal → String) : Prop :=
  ∀ v env st,
    (truthyO v = true → (env.httpResp st.httpCount).status_code ≠ 401 →
      newUrls (op v) env st = [st.sess.base_url ++ pathFor v] ∧
      (op v env st).2.sess.defaultActivity_id = st.sess.defaultActivity_id) ∧
    (truthyO v = false → truthyO st.sess.defaultActivity_id = true →
      (env.httpResp st.httpCount).status_code ≠ 401 →
      newUrls (op v) env st =
        [st.sess.base_url ++ pathFor st.sess.defaultActivity_id] ∧
      (op v env st).2.sess.defaultActivity_id = st.sess.defaultActivity_id) ∧
    (∀ first rest,
      truthyO v = false → truthyO st.sess.defaultActivity_id = false →
      (env.httpResp st.httpCount).status_code ≠ 401 →
      (env.httpResp st.httpCount).jsonList = some (first :: rest) →
      (env.httpResp (st.httpCount + 1)).status_code ≠ 401 →
      newUrls (op v) env st =
        [st.sess.base_url ++ "/athlete/activities",
         st.sess.base_url ++ pathFor (lookupJ "id" first)] ∧
      (op v env st).2.sess.defaultActivity_id = lookupJ "id" first ∧
      (op v env st).1 = .ok (env.httpResp (st.httpCount + 1)))

/-- A relation between the (session, auth-call counter) pair before and
after a run of `a` that every execution satisfies. -/
def Pres {α : Type} (P : Session → Nat → Session → Nat → Prop) (a : M α) : Prop :=
  ∀ env st, P st.sess st.authCount (a env st).2.sess (a env st).2.authCount

/-- The frame every operation obeys: credentials and base URL are never
written, the auth-call counter never decreases, and the access token is
unchanged unless an `authenticate` call happened (a strict increase of the
auth-call counter). -/
def framesP (s : Session) (n : Nat) (s₁ : Session) (n₁ : Nat) : Prop :=
  s₁.config_parameters = s.config_parameters ∧
  s₁.base_url = s.base_url ∧
  n ≤ n₁ ∧
  (n₁ = n → s₁.access_token = s.access_token)

/-- The cached default-activity triple is untouched. -/
def defaultsP (s : Session) (_ : Nat) (s₁ : Session) (_ : Nat) : Prop :=
  s₁.defaultActivity_id = s.defaultActivity_id ∧
  s₁.defaultActivity_name = s.defaultActivity_name ∧
  s₁.defaultActivity_startDateTime = s.defaultActivity_startDateTime

/-- The cached default-activity triple is untouched whenever it was already
populated with a truthy identifier (so the lazy fallback cannot run). -/
def defaultsInvP (s : Session) (_ : Nat) (s₁ : Session) (_ : Nat) : Prop :=
  truthyO s.defaultActivity_id = true →
    (s₁.defaultActivity_id = s.defaultActivity_id ∧
     s₁.defaultActivity_name = s.defaultActivity_name ∧
     s₁.defaultActivity_startDateTime = s.defaultActivity_startDateTime)

/-- Frame conditions common to every operation (see `framesP`). -/
def Frames {α : Type} (a : M α) : Prop := Pres framesP a

/-- The cached default-activity triple is left untouched by every run of `a`. -/
def DefaultsFrame {α : Type} (a : M α) : Prop := Pres defaultsP a

/-- The cached default-activity triple is left untouched by every run of `a`
from a state whose cached identifier is truthy. -/
def DefaultsInv {α : Type} (a : M α) : Prop := Pres defaultsInvP a


/-! ### Unfolding equations for the retry loop at `retry_count = 3` -/

theorem retryAux_zero (fn : String) (inner : M Response) (rc : Nat)
    (last : Option Response) : retryAux fn inner rc 0 last = mPure last := rfl

theorem retryAux_one (fn : String) (inner : M Response)
    (last : Option Response) :
    retryAux fn inner 3 1 last =
      mBind (mPrint limitMsg) fun _ => retryAux fn inner 3 0 last := rfl

theorem retryAux_two (fn : String) (inner : M Response)
    (last : Option Response) :
    retryAux fn inner 3 2 last =
      (mBind (mPrint (fetchingMsg fn 2)) fun _ =>
       mBind inner fun result =>
       if result.status_code = 401 then
         mBind (mPrint unauthorisedMsg) fun _ =>
         mBind authenticate fun _ => retryAux fn inner 3 1 (some result)
       else
         mBind (mPrint (successMsg fn)) fun _ => mPure (some result)) := rfl

theorem retryAux_three (fn : String) (inner : M Response)
    (last : Option Response) :
    retryAux fn inner 3 3 last =
      (mBind (mPrint (fetchingMsg fn 1)) fun _ =>
       mBind inner fun result =>
       if result.status_code = 401 then
         mBind (mPrint unauthorisedMsg) fun _ =>
         mBind authenticate fun _ => retryAux fn inner 3 2 (some result)
       else
         mBind (mPrint (successMsg fn)) fun _ => mPure (some result)) := rfl

/-! ### Closed-form behaviour of the wrapper around a single GET -/

/-- First call not a 401: one GET, no re-auth, session untouched. -/
theorem retry3_get_ok (nm path : String) (params : Option String)
    (env : Env) (st : St)
    (h : (env.httpResp st.httpCount).status_code ≠ 401) :
    retry_request 3 nm (httpGetPath path params) env st =
      (.ok (env.httpResp st.httpCount),
       { sess := st.sess
         httpCount := st.httpCount + 1
         authCount := st.authCount
         requests := st.requests ++
           [{ url := st.sess.base_url ++ path
              reqHeaders := headers st.sess
              params := params }]
         prints := st.prints ++
           [fetchingMsg (replaceFetch nm) 1, successMsg (replaceFetch nm)] }) := by
  unfold retry_request
  rw [retryAux_three]
  simp only [mBind, mPrint, httpGetPath, mPure]
  rw [if_neg h]
  simp only [mBind, mPrint, mPure]
  simp [List.append_assoc]

/-- First call 401, second not: two GETs, one re-auth in between, the second
GET carrying the refreshed token. -/
theorem retry3_get_401_ok (nm path : String) (params : Option String)
    (env : Env) (st : St) (ar : AuthHttpResp) (body : Record)
    (h1 : (env.httpResp st.httpCount).status_code = 401)
    (h2 : (env.httpResp (st.httpCount + 1)).status_code ≠ 401)
    (ha : env.authResp st.authCount = some ar)
    (hb : ar.jsonObj = some body) :
    retry_request 3 nm (httpGetPath path params) env st =
      (.ok (env.httpResp (st.httpCount + 1)),
       { sess := { st.sess with access_token := lookupJ "access_token" body }
         httpCount := st.httpCount + 2
         authCount := st.authCount + 1
         requests := st.requests ++
           [{ url := st.sess.base_url ++ path
              reqHeaders := headers st.sess
              params := params },
            { url := st.sess.base_url ++ path
              reqHeaders := headers
                { st.sess with access_token := lookupJ "access_token" body }
              params := params }]
         prints := st.prints ++
           [fetchingMsg (replaceFetch nm) 1, unauthorisedMsg,
            fetchingMsg (replaceFetch nm) 2,
            successMsg (replaceFetch nm)] }) := by
  unfold retry_request
  rw [retryAux_three]
  simp only [mBind, mPrint, httpGetPath, mPure]
  rw [if_pos h1]
  simp only [mBind, mPrint]
  simp only [authenticate, ha, hb]
  rw [retryAux_two]
  simp only [mBind, mPrint, httpGetPath, mPure]
  rw [if_neg h2]
  simp only [mBind, mPrint, mPure]
  simp [List.append_assoc]

/-- Both calls 401: two GETs, two re-auths, the limit notice, and the last
(still 401) response returned rather than an exception. -/
theorem retry3_get_401_401 (nm path : String) (params : Option String)
    (env : Env) (st : St) (ar₀ ar₁ : AuthHttpResp) (body₀ body₁ : Record)
    (h1 : (env.httpResp st.httpCount).status_code = 401)
    (h2 : (env.httpResp (st.httpCount + 1)).status_code = 401)
    (ha₀ : env.authResp st.authCount = some ar₀)
    (hb₀ : ar₀.jsonObj = some body₀)
    (ha₁ : env.authResp (st.authCount + 1) = some ar₁)
    (hb₁ : ar₁.jsonObj = some body₁) :
    retry_request 3 nm (httpGetPath path params) env st =
      (.ok (env.httpResp (st.httpCount + 1)),
       { sess := { st.sess with access_token := lookupJ "access_token" body₁ }
         httpCount := st.httpCount + 2
         authCount := st.authCount + 2
         requests := st.requests ++
           [{ url := st.sess.base_url ++ path
              reqHeaders := headers st.sess
              params := params },
            { url := st.sess.base_url ++ path
              reqHeaders := headers
                { st.sess with access_token := lookupJ "access_token" body₀ }
              params := params }]
         prints := st.prints ++
           [fetchingMsg (replaceFetch nm) 1, unauthorisedMsg,
            fetchingMsg (replaceFetch nm) 2, unauthorisedMsg,
            limitMsg] }) := by
  unfold retry_request
  rw [retryAux_three]
  simp only [mBind, mPrint, httpGetPath, mPure]
  rw [if_pos h1]
  simp only [mBind, mPrint]
  simp only [authenticate, ha₀, hb₀]
  rw [retryAux_two]
  simp only [mBind, mPrint, httpGetPath, mPure]
  rw [if_pos h2]
  simp only [mBind, mPrint]
  simp only [authenticate, ha₁, hb₁]
  rw [retryAux_one, retryAux_zero]
  simp only [mBind, mPrint, mPure]
  simp [List.append_assoc]

/-! ### The six wrapped operations reduce to a single GET when the
identifier is supplied (truthy) -/

theorem fetch_activity_truthy (v : Option JVal) (h : truthyO v = true) :
    fetch_activity v =
      retry_request 3 "fetch_activity"
        (httpGetPath ("/activities/" ++ pyStrO v) none) := by
  have hinner : fetch_activity_inner v =
      httpGetPath ("/activities/" ++ pyStrO v) none := by
    funext env st
    simp [fetch_activity_inner, mBind, mGetSession, h]
  unfold fetch_activity
  rw [hinner]

theorem fetch_stream_truthy (v : Option JVal) (ks : Option (List String))
    (h : truthyO v = true) :
    fetch_stream v ks =
      retry_request 3 "fetch_stream"
        (httpGetPath ("/activities/" ++ pyStrO v ++ "/streams")
          (streamParams ks)) := by
  have hinner : fetch_stream_inner v ks =
      httpGetPath ("/activities/" ++ pyStrO v ++ "/streams") (streamParams ks) := by
    funext env st
    simp [fetch_stream_inner, mBind, mGetSession, h]
  unfold fetch_stream
  rw [hinner]

theorem fetch_segments_truthy (v : Option JVal) (h : truthyO v = true) :
    fetch_segments v =
      retry_request 3 "fetch_segments"
        (httpGetPath ("/segments/" ++ pyStrO v) none) := by
  have hinner : fetch_segments_inner v =
      httpGetPath ("/segments/" ++ pyStrO v) none := by
    funext env st
    simp [fetch_segments_inner, mBind, mGetSession, h]
  unfold fetch_segments
  rw [hinner]

/-! ### C1: retry / re-authentication accounting -/



theorem c1spec_retry_get (nm path : String) (params : Option String) :
    C1Spec (retry_request 3 nm (httpGetPath path params)) := by
  intro env st hauth
  constructor
  · intro h
    rw [retry3_get_ok nm path params env st h]
    exact ⟨rfl, rfl, rfl⟩
  · intro h1
    by_cases h2 : (env.httpResp (st.httpCount + 1)).status_code = 401
    · obtain ⟨ar₀, body₀, ha₀, hb₀⟩ := hauth st.authCount
      obtain ⟨ar₁, body₁, ha₁, hb₁⟩ := hauth (st.authCount + 1)
      rw [retry3_get_401_401 nm path params env st ar₀ ar₁ body₀ body₁
            h1 h2 ha₀ hb₀ ha₁ hb₁]
      simp [h2]
    · obtain ⟨ar, body, ha, hb⟩ := hauth st.authCount
      rw [retry3_get_401_ok nm path params env st ar body h1 h2 ha hb]
      simp [h2]

/-- C1: each of the six retry-wrapped fetch operations (with `maxAttempts`
fixed at 3, the identifier-scoped ones taken with a supplied truthy
identifier so that the wrapped body is that operation's single GET) makes
one re-authentication call for each 401 response it obtains, at most
`maxAttempts - 1 = 2` in one invocation, and on exhaustion returns the
last-obtained response (possibly still a 401) instead of raising. -/
theorem c1_retry_reauth_budget :
    C1Spec fetch_athlete ∧ C1Spec fetch_activities ∧
    C1Spec fetch_segmentsStarred ∧
    (∀ v, truthyO v = true →
        C1Spec (fetch_activity v) ∧ C1Spec (fetch_segments v)) ∧
    (∀ v ks, truthyO v = true → C1Spec (fetch_stream v ks)) := by
  refine ⟨?_, ?_, ?_, ?_, ?_⟩
  · exact c1spec_retry_get "fetch_athlete" "/athlete" none
  · exact c1spec_retry_get "fetch_activities" "/athlete/activities" none
  · exact c1spec_retry_get "fetch_segmentsStarred" "/segments/starred" none
  · intro v h
    constructor
    · rw [fetch_activity_truthy v h]
      exact c1spec_retry_get "fetch_activity" ("/activities/" ++ pyStrO v) none
    · rw [fetch_segments_truthy v h]
      exact c1spec_retry_get "fetch_segments" ("/segments/" ++ pyStrO v) none
  · intro v ks h
    rw [fetch_stream_truthy v ks h]
    exact c1spec_retry_get "fetch_stream"
      ("/activities/" ++ pyStrO v ++ "/streams") (streamParams ks)





theorem c1_retry_reauth_budget_witness :
    (fetch_athlete envAll401 stW).1 = .ok { status_code := 401, jsonList := none } ∧
    (fetch_athlete envAll401 stW).2.authCount = 2 ∧
    limitMsg ∈ (fetch_athlete envAll401 stW).2.prints := by
  have h := (c1_retry_reauth_budget.1 envAll401 stW
      (fun n => ⟨_, _, rfl, rfl⟩)).2 (by decide)
  obtain ⟨hres, -, hcnt, -, hmem⟩ := h
  refine ⟨hres, ?_, hmem (by decide)⟩
  rw [hcnt]
  decide

/-! ### C2: a non-401 first response is terminal -/


/-- C2: for every wrapped fetch operation (identifier-scoped ones taken
with a supplied truthy identifier), any non-401 first response — including
non-401 error statuses — is terminal: one GET, no re-authentication, the
response returned unmodified. -/
theorem c2_non401_terminal :
    C2Spec fetch_athlete "athlete" "/athlete" none ∧
    C2Spec fetch_activities "activities" "/athlete/activities" none ∧
    C2Spec fetch_segmentsStarred "segmentsStarred" "/segments/starred" none ∧
    (∀ v, truthyO v = true →
        C2Spec (fetch_activity v) "activity" ("/activities/" ++ pyStrO v) none ∧
        C2Spec (fetch_segments v) "segments" ("/segments/" ++ pyStrO v) none) ∧
    (∀ v ks, truthyO v = true →
        C2Spec (fetch_stream v ks) "stream"
          ("/activities/" ++ pyStrO v ++ "/streams") (streamParams ks)) := by
  have base : ∀ nm path params, C2Spec (retry_request 3 nm (httpGetPath path params))
      (replaceFetch nm) path params := by
    intro nm path params env st h
    rw [retry3_get_ok nm path params env st h]
  refine ⟨?_, ?_, ?_, ?_, ?_⟩
  · have := base "fetch_athlete" "/athlete" none
    simpa [show replaceFetch "fetch_athlete" = "athlete" from by decide] using this
  · have := base "fetch_activities" "/athlete/activities" none
    simpa [show replaceFetch "fetch_activities" = "activities" from by decide]
      using this
  · have := base "fetch_segmentsStarred" "/segments/starred" none
    simpa [show replaceFetch "fetch_segmentsStarred" = "segmentsStarred" from by decide]
      using this
  · intro v h
    constructor
    · rw [fetch_activity_truthy v h]
      have := base "fetch_activity" ("/activities/" ++ pyStrO v) none
      simpa [show replaceFetch "fetch_activity" = "activity" from by decide]
        using this
    · rw [fetch_segments_truthy v h]
      have := base "fetch_segments" ("/segments/" ++ pyStrO v) none
      simpa [show replaceFetch "fetch_segments" = "segments" from by decide]
        using this
  · intro v ks h
    rw [fetch_stream_truthy v ks h]
    have := base "fetch_stream" ("/activities/" ++ pyStrO v ++ "/streams")
      (streamParams ks)
    simpa [show replaceFetch "fetch_stream" = "stream" from by decide] using this


theorem c2_non401_terminal_witness :
    fetch_athlete envOk200 stW =
      (.ok { status_code := 200, jsonList := some [] },
       { sess := stW.sess
         httpCount := 1
         authCount := 0
         requests := [{ url := "http://www.strava.com/api/v3/athlete"
                        reqHeaders := [("Authorization", "Bearer tok0"),
                                       ("Connection", "close")]
                        params := none }]
         prints := ["Fetching athlete: attempt 1",
                    "Successfully retrieved athlete data"] }) := by
  have h := c2_non401_terminal.1 envOk200 stW (by decide)
  rw [h]
  rfl

/-! ### C3: authenticate's failure behaviour -/

/-- C3 counterexample: the claim says authenticate() does not raise for
every failure mode of the token exchange, including a network error; but a
transport failure of the POST propagates out of `authenticate` as an
exception. -/
theorem c3_network_error_raises :
    (authenticate envNet stW).1 = .error Err.network := rfl

/-- C3 (amended): whenever the token-exchange POST yields a response with a
parseable JSON body — any HTTP status, 2xx or not, and whether or not the
body carries an access-token field — authenticate() does not raise: it
stores the body's access-token value (absent when the field is missing) and
returns the session instance.  A transport error or an unparseable body
propagates as an exception instead. -/
theorem c3_auth_no_raise_on_parsed_body (env : Env) (st : St)
    (r : AuthHttpResp) (body : Record)
    (ha : env.authResp st.authCount = some r) (hb : r.jsonObj = some body) :
    authenticate env st =
      (.ok { st.sess with access_token := lookupJ "access_token" body },
       { st with
          authCount := st.authCount + 1
          sess := { st.sess with access_token := lookupJ "access_token" body } }) := by
  simp [authenticate, ha, hb]

theorem c3_auth_no_raise_on_parsed_body_witness :
    authenticate envMissTok stW =
      (.ok { stW.sess with access_token := none },
       { stW with
          authCount := 1
          sess := { stW.sess with access_token := none } }) := by
  have h := c3_auth_no_raise_on_parsed_body envMissTok stW
      { status_code := 400, jsonObj := some [("message", .jstr "bad request")] }
      [("message", .jstr "bad request")] rfl rfl
  rw [h]
  rfl

/-! ### C9: the base endpoint is plain http, not https -/

/-- C9: the spec requires every fetch operation to target an HTTPS base
endpoint of the form https-service-api-v3, but the class attribute is the
plain-http URL, and every issued GET uses it (shown concretely for
`fetch_athlete`). -/
theorem c9_base_url_is_http_not_https :
    base_url = "http://www.strava.com/api/v3" ∧
    "https://".toList.isPrefixOf base_url.toList = false ∧
    sessW.base_url = base_url ∧
    (fetch_athlete envOk200 stW).2.requests.map Request.url =
      ["http://www.strava.com/api/v3/athlete"] := by
  refine ⟨rfl, by decide, rfl, rfl⟩

/-! ### C10: empty activities list -/

/-- C10: when the activities list parses as empty, getLastID raises
(Python's `data[0]` IndexError) for either value of setDefault, and the
failure happens before any write, leaving all three defaultActivity slots
unchanged. -/
theorem c10_getLastID_empty_list (b : Bool) (env : Env) (st : St)
    (hs : (env.httpResp st.httpCount).status_code ≠ 401)
    (hj : (env.httpResp st.httpCount).jsonList = some []) :
    (getLastID b env st).1 = .error Err.indexError ∧
    (getLastID b env st).2.sess.defaultActivity_id =
      st.sess.defaultActivity_id ∧
    (getLastID b env st).2.sess.defaultActivity_name =
      st.sess.defaultActivity_name ∧
    (getLastID b env st).2.sess.defaultActivity_startDateTime =
      st.sess.defaultActivity_startDateTime := by
  have hfa := retry3_get_ok "fetch_activities" "/athlete/activities" none env st hs
  unfold getLastID
  simp only [mBind]
  rw [show fetch_activities =
        retry_request 3 "fetch_activities" (httpGetPath "/athlete/activities" none)
      from rfl, hfa]
  simp only [hj, mThrow]
  exact ⟨trivial, trivial, trivial, trivial⟩

theorem c10_getLastID_empty_list_witness :
    (getLastID true envOk200 stW).1 = .error Err.indexError ∧
    (getLastID true envOk200 stW).2.sess.defaultActivity_id = none ∧
    (getLastID true envOk200 stW).2.sess.defaultActivity_name = none ∧
    (getLastID true envOk200 stW).2.sess.defaultActivity_startDateTime = none := by
  have h := c10_getLastID_empty_list true envOk200 stW (by decide) rfl
  exact h

/-! ### C5: getLastID on a non-empty list -/

/-- Evaluation of getLastID on a state whose next GET succeeds (non-401)
with a non-empty parsed list: one list fetch, the first entry's id
returned, and the three default slots overwritten exactly when the flag is
set. -/
theorem getLastID_nonempty_eval (b : Bool) (env : Env) (st : St)
    (first : Record) (rest : List Record)
    (hs : (env.httpResp st.httpCount).status_code ≠ 401)
    (hj : (env.httpResp st.httpCount).jsonList = some (first :: rest)) :
    getLastID b env st =
      (.ok (lookupJ "id" first),
       { sess :=
           if b then
             { st.sess with
                 defaultActivity_id := lookupJ "id" first
                 defaultActivity_name := lookupJ "name" first
                 defaultActivity_startDateTime := lookupJ "start_date_local" first }
           else st.sess
         httpCount := st.httpCount + 1
         authCount := st.authCount
         requests := st.requests ++
           [{ url := st.sess.base_url ++ "/athlete/activities"
              reqHeaders := headers st.sess
              params := none }]
         prints := st.prints ++
           [fetchingMsg "activities" 1, successMsg "activities"] }) := by
  have hfa := retry3_get_ok "fetch_activities" "/athlete/activities" none env st hs
  unfold getLastID
  simp only [mBind]
  rw [show fetch_activities =
        retry_request 3 "fetch_activities" (httpGetPath "/athlete/activities" none)
      from rfl, hfa]
  simp only [hj]
  cases b <;> rfl

/-- C5: on a non-empty activities list, getLastID returns the first entry's
id for either value of setDefault, and with setDefault = true it overwrites
all three cached default slots together with the first entry's id, name and
start timestamp (with setDefault = false it touches none of them). -/
theorem c5_getLastID_first_entry (b : Bool) (env : Env) (st : St)
    (first : Record) (rest : List Record)
    (hs : (env.httpResp st.httpCount).status_code ≠ 401)
    (hj : (env.httpResp st.httpCount).jsonList = some (first :: rest)) :
    (getLastID b env st).1 = .ok (lookupJ "id" first) ∧
    (getLastID b env st).2.sess.defaultActivity_id =
      (if b then lookupJ "id" first else st.sess.defaultActivity_id) ∧
    (getLastID b env st).2.sess.defaultActivity_name =
      (if b then lookupJ "name" first else st.sess.defaultActivity_name) ∧
    (getLastID b env st).2.sess.defaultActivity_startDateTime =
      (if b then lookupJ "start_date_local" first
       else st.sess.defaultActivity_startDateTime) ∧
    (getLastID true env st).1 = (getLastID false env st).1 := by
  have hb := getLastID_nonempty_eval b env st first rest hs hj
  have ht := getLastID_nonempty_eval true env st first rest hs hj
  have hf := getLastID_nonempty_eval false env st first rest hs hj
  rw [hb, ht, hf]
  cases b <;> simp

theorem c5_getLastID_first_entry_witness :
    (getLastID true envList555 stW).1 = .ok (some (.jint 555)) ∧
    (getLastID true envList555 stW).2.sess.defaultActivity_id =
      some (.jint 555) ∧
    (getLastID true envList555 stW).2.sess.defaultActivity_name =
      some (.jstr "Ride") ∧
    (getLastID true envList555 stW).2.sess.defaultActivity_startDateTime =
      some (.jstr "2024-01-01T08:00:00") := by
  have h := c5_getLastID_first_entry true envList555 stW ride555 []
    (by decide) rfl
  obtain ⟨h1, h2, h3, h4, -⟩ := h
  exact ⟨by rw [h1]; rfl, by rw [h2]; rfl, by rw [h3]; rfl, by rw [h4]; rfl⟩

/-! ### C4: identifier-resolution policy -/

theorem resolver_case1 (nm : String) (pathFor : Option JVal → String)
    (params : Option String) (v : Option JVal) (env : Env) (st : St)
    (hv : truthyO v = true)
    (hs : (env.httpResp st.httpCount).status_code ≠ 401) :
    retry_request 3 nm (resolverInner pathFor params v) env st =
      (.ok (env.httpResp st.httpCount),
       { sess := st.sess
         httpCount := st.httpCount + 1
         authCount := st.authCount
         requests := st.requests ++
           [{ url := st.sess.base_url ++ pathFor v
              reqHeaders := headers st.sess
              params := params }]
         prints := st.prints ++
           [fetchingMsg (replaceFetch nm) 1, successMsg (replaceFetch nm)] }) := by
  have hi : resolverInner pathFor params v = httpGetPath (pathFor v) params := by
    funext env st
    simp [resolverInner, mBind, mGetSession, hv]
  rw [hi]
  exact retry3_get_ok nm (pathFor v) params env st hs

theorem resolver_case2 (nm : String) (pathFor : Option JVal → String)
    (params : Option String) (v : Option JVal) (env : Env) (st : St)
    (hv : truthyO v = false)
    (hd : truthyO st.sess.defaultActivity_id = true)
    (hs : (env.httpResp st.httpCount).status_code ≠ 401) :
    retry_request 3 nm (resolverInner pathFor params v) env st =
      (.ok (env.httpResp st.httpCount),
       { sess := st.sess
         httpCount := st.httpCount + 1
         authCount := st.authCount
         requests := st.requests ++
           [{ url := st.sess.base_url ++ pathFor st.sess.defaultActivity_id
              reqHeaders := headers st.sess
              params := params }]
         prints := st.prints ++
           [fetchingMsg (replaceFetch nm) 1,
            "No activity provided - Getting default activity",
            successMsg (replaceFetch nm)] }) := by
  unfold retry_request
  rw [retryAux_three]
  simp only [mBind, mPrint, mPure, resolverInner, mGetSession, httpGetPath, hv, hd]
  simp only [Bool.false_eq_true, if_false, if_true]
  simp only [mBind, mPrint, httpGetPath, mPure]
  rw [if_neg hs]
  simp only [mBind, mPrint, mPure]
  simp [List.append_assoc]

theorem resolver_case3 (nm : String) (pathFor : Option JVal → String)
    (params : Option String) (v : Option JVal) (env : Env) (st : St)
    (first : Record) (rest : List Record)
    (hv : truthyO v = false)
    (hd : truthyO st.sess.defaultActivity_id = false)
    (hs1 : (env.httpResp st.httpCount).status_code ≠ 401)
    (hj : (env.httpResp st.httpCount).jsonList = some (first :: rest))
    (hs2 : (env.httpResp (st.httpCount + 1)).status_code ≠ 401) :
    retry_request 3 nm (resolverInner pathFor params v) env st =
      (.ok (env.httpResp (st.httpCount + 1)),
       { sess := { st.sess with
                     defaultActivity_id := lookupJ "id" first
                     defaultActivity_name := lookupJ "name" first
                     defaultActivity_startDateTime :=
                       lookupJ "start_date_local" first }
         httpCount := st.httpCount + 2
         authCount := st.authCount
         requests := st.requests ++
           [{ url := st.sess.base_url ++ "/athlete/activities"
              reqHeaders := headers st.sess
              params := none },
            { url := st.sess.base_url ++ pathFor (lookupJ "id" first)
              reqHeaders := headers st.sess
              params := params }]
         prints := st.prints ++
           [fetchingMsg (replaceFetch nm) 1,
            "No activity id provided - fetching last activity",
            fetchingMsg "activities" 1, successMsg "activities",
            successMsg (replaceFetch nm)] }) := by
  have hgl := getLastID_nonempty_eval true env
      { sess := st.sess, httpCount := st.httpCount, authCount := st.authCount,
        requests := st.requests,
        prints := st.prints ++ [fetchingMsg (replaceFetch nm) 1] ++
          ["No activity id provided - fetching last activity"] }
      first rest hs1 hj
  unfold retry_request
  rw [retryAux_three]
  simp only [mBind, mPrint, mPure, resolverInner, mGetSession, hv, hd]
  simp only [Bool.false_eq_true, if_false]
  simp only [mBind, mPrint]
  rw [hgl]
  simp only [mBind, mPrint, httpGetPath, mPure]
  rw [if_neg hs2]
  simp only [mBind, mPrint, mPure]
  simp [List.append_assoc, headers]

theorem resolveSpec_of_resolver (nm : String) (pathFor : Option JVal → String)
    (params : Option String) :
    ResolveSpec (fun v => retry_request 3 nm (resolverInner pathFor params v))
      pathFor := by
  intro v env st
  refine ⟨?_, ?_, ?_⟩
  · intro hv hs
    have h := resolver_case1 nm pathFor params v env st hv hs
    unfold newUrls
    simp only [h]
    refine ⟨?_, trivial⟩
    simp [List.drop_left]
  · intro hv hd hs
    have h := resolver_case2 nm pathFor params v env st hv hd hs
    unfold newUrls
    simp only [h]
    refine ⟨?_, trivial⟩
    simp [List.drop_left]
  · intro first rest hv hd hs1 hj hs2
    have h := resolver_case3 nm pathFor params v env st first rest hv hd hs1 hj hs2
    unfold newUrls
    simp only [h]
    refine ⟨?_, trivial, trivial⟩
    simp [List.drop_left]

/-- C4 counterexample: the integer identifier 0 is supplied by the caller
but, being falsy, is not used in the request path; with a cached default of
7, the GET goes to /activities/7, not /activities/0. -/
theorem c4_zero_identifier_not_used :
    newUrls (fetch_activity (some (.jint 0))) envOk200 stDef7 =
      ["http://www.strava.com/api/v3/activities/7"] ∧
    ¬ newUrls (fetch_activity (some (.jint 0))) envOk200 stDef7 =
      ["http://www.strava.com/api/v3/activities/0"] := by
  exact ⟨by decide, by decide⟩

/-- C4 (amended): for the three identifier-scoped fetch operations, a
truthy supplied identifier (in particular any nonzero integer) is used
directly in the request path; a falsy one (None or 0) is treated as absent:
then a truthy cached default identifier is used, and otherwise the
activities list is fetched once with setDefault = true and its first
entry's id is used, the cached default being overwritten.  The policy is
the same for all three operations. -/
theorem c4_resolution_policy :
    ResolveSpec fetch_activity (fun w => "/activities/" ++ pyStrO w) ∧
    (∀ ks, ResolveSpec (fun w => fetch_stream w ks)
      (fun w => "/activities/" ++ pyStrO w ++ "/streams")) ∧
    ResolveSpec fetch_segments (fun w => "/segments/" ++ pyStrO w) := by
  refine ⟨?_, ?_, ?_⟩
  · exact resolveSpec_of_resolver "fetch_activity"
      (fun w => "/activities/" ++ pyStrO w) none
  · intro ks
    exact resolveSpec_of_resolver "fetch_stream"
      (fun w => "/activities/" ++ pyStrO w ++ "/streams") (streamParams ks)
  · exact resolveSpec_of_resolver "fetch_segments"
      (fun w => "/segments/" ++ pyStrO w) none

theorem c4_resolution_policy_witness :
    newUrls (fetch_activity none) envList555 stW =
      ["http://www.strava.com/api/v3/athlete/activities",
       "http://www.strava.com/api/v3/activities/555"] ∧
    (fetch_activity none envList555 stW).2.sess.defaultActivity_id =
      some (.jint 555) := by
  have h := (c4_resolution_policy.1 none envList555 stW).2.2 ride555 []
      rfl rfl (by decide) rfl (by decide)
  exact ⟨h.1, h.2.1⟩

/-! ### C6: list projection -/

theorem projectRecord_all_present (keys : List String) (dic : Record)
    (h : ∀ k ∈ keys, lookupJ k dic ≠ none) :
    ∃ o, projectRecord keys dic = .ok o ∧
      o.map Prod.fst = keys ∧
      ∀ k v, (k, v) ∈ o → lookupJ k dic = some v := by
  induction keys with
  | nil => exact ⟨[], rfl, rfl, by simp⟩
  | cons k ks ih =>
    obtain ⟨v, hv⟩ := Option.ne_none_iff_exists'.mp (h k (by simp))
    obtain ⟨o, ho, hfst, hmem⟩ := ih (fun k hk => h k (by simp [hk]))
    refine ⟨(k, v) :: o, ?_, by simp [hfst], ?_⟩
    · simp [projectRecord, hv, ho]
    · intro k₁ v₁ h₁
      rcases List.mem_cons.mp h₁ with h₁ | h₁
      · obtain ⟨rfl, rfl⟩ := Prod.mk.injEq .. ▸ h₁
        simpa using hv
      · exact hmem k₁ v₁ h₁

theorem projectRecord_missing (keys : List String) (dic : Record)
    (h : ∃ k ∈ keys, lookupJ k dic = none) :
    ∃ k, projectRecord keys dic = .error (.keyError k) ∧ k ∈ keys := by
  induction keys with
  | nil => simp at h
  | cons k ks ih =>
    rcases hk : lookupJ k dic with _ | v
    · exact ⟨k, by simp [projectRecord, hk], by simp⟩
    · obtain ⟨k₁, hk₁, hnone⟩ := h
      rcases List.mem_cons.mp hk₁ with rfl | hk₁
      · rw [hk] at hnone; cases hnone
      · obtain ⟨k₂, he, hmem⟩ := ih ⟨k₁, hk₁, hnone⟩
        exact ⟨k₂, by simp [projectRecord, hk, he], by simp [hmem]⟩

theorem projectAll_all_present (keys : List String) (acts : List Record)
    (h : ∀ dic ∈ acts, ∀ k ∈ keys, lookupJ k dic ≠ none) :
    ∃ outs, projectAll keys acts = .ok outs ∧
      List.Forall₂ (fun dic o =>
        o.map Prod.fst = keys ∧ ∀ k v, (k, v) ∈ o → lookupJ k dic = some v)
        acts outs := by
  induction acts with
  | nil => exact ⟨[], rfl, List.Forall₂.nil⟩
  | cons d ds ih =>
    obtain ⟨o, ho, hfst, hmem⟩ :=
      projectRecord_all_present keys d (h d (by simp))
    obtain ⟨outs, houts, hall⟩ := ih (fun d₁ hd₁ => h d₁ (by simp [hd₁]))
    refine ⟨o :: outs, ?_, List.Forall₂.cons ⟨hfst, hmem⟩ hall⟩
    simp [projectAll, ho, houts]

theorem projectAll_missing (keys : List String) (acts : List Record)
    (h : ∃ dic ∈ acts, ∃ k ∈ keys, lookupJ k dic = none) :
    ∃ k, projectAll keys acts = .error (.keyError k) ∧ k ∈ keys := by
  induction acts with
  | nil => simp at h
  | cons d ds ih =>
    by_cases hd : ∃ k ∈ keys, lookupJ k d = none
    · obtain ⟨k, he, hk⟩ := projectRecord_missing keys d hd
      exact ⟨k, by simp [projectAll, he], hk⟩
    · obtain ⟨d₁, hd₁, hex⟩ := h
      rcases List.mem_cons.mp hd₁ with rfl | hd₁
      · exact absurd hex hd
      · obtain ⟨o, ho, -, -⟩ := projectRecord_all_present keys d
          (by push_neg at hd; exact hd)
        obtain ⟨k, he, hk⟩ := ih ⟨d₁, hd₁, hex⟩
        exact ⟨k, by simp [projectAll, ho, he], hk⟩

/-- C6: get_activities_data projects each parsed record to exactly the
requested field names — the four default fields when called with no
arguments, the explicitly given names otherwise — and raises KeyError (the
MissingField condition) as soon as a requested field is absent from a
record. -/
theorem c6_projection (args : List String) (acts : List Record)
    (env : Env) (st : St)
    (hs : (env.httpResp st.httpCount).status_code ≠ 401)
    (hj : (env.httpResp st.httpCount).jsonList = some acts) :
    ((∀ dic ∈ acts, ∀ k ∈ (if args.isEmpty then defaultKeys else args),
        lookupJ k dic ≠ none) →
      ∃ outs, (get_activities_data args env st).1 = .ok outs ∧
        List.Forall₂ (fun dic o =>
          o.map Prod.fst = (if args.isEmpty then defaultKeys else args) ∧
          ∀ k v, (k, v) ∈ o → lookupJ k dic = some v) acts outs) ∧
    ((∃ dic ∈ acts, ∃ k ∈ (if args.isEmpty then defaultKeys else args),
        lookupJ k dic = none) →
      ∃ k, (get_activities_data args env st).1 = .error (.keyError k) ∧
        k ∈ (if args.isEmpty then defaultKeys else args)) := by
  have hfa := retry3_get_ok "fetch_activities" "/athlete/activities" none env st hs
  constructor
  · intro hall
    obtain ⟨outs, houts, hfa₂⟩ :=
      projectAll_all_present (if args.isEmpty then defaultKeys else args) acts hall
    refine ⟨outs, ?_, hfa₂⟩
    unfold get_activities_data
    simp only [mBind]
    rw [show fetch_activities =
          retry_request 3 "fetch_activities" (httpGetPath "/athlete/activities" none)
        from rfl, hfa]
    simp only [hj, houts]
    rfl
  · intro hmiss
    obtain ⟨k, he, hk⟩ :=
      projectAll_missing (if args.isEmpty then defaultKeys else args) acts hmiss
    refine ⟨k, ?_, hk⟩
    unfold get_activities_data
    simp only [mBind]
    rw [show fetch_activities =
          retry_request 3 "fetch_activities" (httpGetPath "/athlete/activities" none)
        from rfl, hfa]
    simp only [hj, he]
    rfl

theorem c6_projection_witness :
    (∃ outs, (get_activities_data [] envList555 stW).1 = .ok outs ∧
      List.Forall₂ (fun dic o =>
        o.map Prod.fst = defaultKeys ∧
        ∀ k v, (k, v) ∈ o → lookupJ k dic = some v) [ride555] outs) ∧
    (∃ k, (get_activities_data ["elevation"] envList555 stW).1 =
        .error (.keyError k) ∧ k ∈ ["elevation"]) := by
  constructor
  · have h := (c6_projection [] [ride555] envList555 stW (by decide) rfl).1
      (by decide)
    exact h
  · have h := (c6_projection ["elevation"] [ride555] envList555 stW (by decide) rfl).2
      (by decide)
    exact h

/-! ### C8: frame conditions -/

theorem pres_neutral {α : Type} {P : Session → Nat → Session → Nat → Prop}
    (hrefl : ∀ s n, P s n s n) (a : M α)
    (ha : ∀ env st, (a env st).2.sess = st.sess ∧
      (a env st).2.authCount = st.authCount) :
    Pres P a := by
  intro env st
  rw [(ha env st).1, (ha env st).2]
  exact hrefl _ _

theorem pres_mBind {α β : Type} {P : Session → Nat → Session → Nat → Prop}
    (htrans : ∀ s₁ n₁ s₂ n₂ s₃ n₃,
      P s₁ n₁ s₂ n₂ → P s₂ n₂ s₃ n₃ → P s₁ n₁ s₃ n₃)
    {x : M α} {f : α → M β} (hx : Pres P x) (hf : ∀ a, Pres P (f a)) :
    Pres P (mBind x f) := by
  intro env st
  have h1 := hx env st
  unfold mBind
  rcases hxe : x env st with ⟨r, st₁⟩
  rw [hxe] at h1
  cases r with
  | error e => exact h1
  | ok a => exact htrans _ _ _ _ _ _ h1 (hf a env st₁)

theorem pres_authenticate {P : Session → Nat → Session → Nat → Prop}
    (hbump : ∀ s n, P s n s (n + 1))
    (htok : ∀ s n body,
      P s n { s with access_token := lookupJ "access_token" body } (n + 1)) :
    Pres P authenticate := by
  intro env st
  unfold authenticate
  rcases henv : env.authResp st.authCount with _ | r
  · simp only [henv]
    exact hbump _ _
  · rcases hr : r.jsonObj with _ | body
    · simp only [henv, hr]
      exact hbump _ _
    · simp only [henv, hr]
      exact htok _ _ body

theorem retryAux_limit_eq (fn : String) (inner : M Response) (rc : Nat)
    (last : Option Response) :
    retryAux fn inner rc (0 + 1) last =
      mBind (mPrint limitMsg) fun _ => retryAux fn inner rc 0 last := rfl

theorem retryAux_step_eq (fn : String) (inner : M Response) (rc rem₁ : Nat)
    (last : Option Response) :
    retryAux fn inner rc (rem₁ + 1 + 1) last =
      (mBind (mPrint (fetchingMsg fn (rc - (rem₁ + 1)))) fun _ =>
       mBind inner fun result =>
       if result.status_code = 401 then
         mBind (mPrint unauthorisedMsg) fun _ =>
         mBind authenticate fun _ =>
           retryAux fn inner rc (rem₁ + 1) (some result)
       else
         mBind (mPrint (successMsg fn)) fun _ => mPure (some result)) := rfl

theorem pres_retryAux {P : Session → Nat → Session → Nat → Prop}
    (htrans : ∀ s₁ n₁ s₂ n₂ s₃ n₃,
      P s₁ n₁ s₂ n₂ → P s₂ n₂ s₃ n₃ → P s₁ n₁ s₃ n₃)
    (hrefl : ∀ s n, P s n s n)
    {inner : M Response} (hinner : Pres P inner)
    (hauth : Pres P authenticate) (fn : String) (rc : Nat) :
    ∀ rem last, Pres P (retryAux fn inner rc rem last) := by
  intro rem
  induction rem with
  | zero =>
    intro last env st
    exact hrefl _ _
  | succ rem ih =>
    intro last
    cases rem with
    | zero =>
      rw [retryAux_limit_eq]
      refine pres_mBind htrans
        (pres_neutral hrefl _ (fun env st => ⟨rfl, rfl⟩)) ?_
      intro _
      exact ih last
    | succ rem₁ =>
      rw [retryAux_step_eq]
      refine pres_mBind htrans
        (pres_neutral hrefl _ (fun env st => ⟨rfl, rfl⟩)) ?_
      intro _
      refine pres_mBind htrans hinner ?_
      intro result
      by_cases hc : result.status_code = 401
      · rw [if_pos hc]
        refine pres_mBind htrans
          (pres_neutral hrefl _ (fun env st => ⟨rfl, rfl⟩)) ?_
        intro _
        refine pres_mBind htrans hauth ?_
        intro _
        exact ih (some result)
      · rw [if_neg hc]
        refine pres_mBind htrans
          (pres_neutral hrefl _ (fun env st => ⟨rfl, rfl⟩)) ?_
        intro _
        exact pres_neutral hrefl _ (fun env st => ⟨rfl, rfl⟩)

theorem pres_retry_request {P : Session → Nat → Session → Nat → Prop}
    (htrans : ∀ s₁ n₁ s₂ n₂ s₃ n₃,
      P s₁ n₁ s₂ n₂ → P s₂ n₂ s₃ n₃ → P s₁ n₁ s₃ n₃)
    (hrefl : ∀ s n, P s n s n)
    {inner : M Response} (hinner : Pres P inner)
    (hauth : Pres P authenticate) (rc : Nat) (fn : String) :
    Pres P (retry_request rc fn inner) := by
  refine pres_mBind htrans (pres_retryAux htrans hrefl hinner hauth _ _ _ _) ?_
  intro last
  cases last with
  | some r => exact pres_neutral hrefl _ (fun env st => ⟨rfl, rfl⟩)
  | none => exact pres_neutral hrefl _ (fun env st => ⟨rfl, rfl⟩)

theorem framesP_trans : ∀ s₁ n₁ s₂ n₂ s₃ n₃,
    framesP s₁ n₁ s₂ n₂ → framesP s₂ n₂ s₃ n₃ → framesP s₁ n₁ s₃ n₃ := by
  intro s₁ n₁ s₂ n₂ s₃ n₃ h1 h2
  obtain ⟨hc1, hb1, hl1, ht1⟩ := h1
  obtain ⟨hc2, hb2, hl2, ht2⟩ := h2
  refine ⟨hc2.trans hc1, hb2.trans hb1, hl1.trans hl2, ?_⟩
  intro he
  have e2 : n₂ = n₁ := by omega
  have e3 : n₃ = n₂ := by omega
  rw [ht2 e3, ht1 e2]

theorem framesP_refl : ∀ s n, framesP s n s n :=
  fun _ _ => ⟨rfl, rfl, Nat.le_refl _, fun _ => rfl⟩

theorem frames_authenticate : Frames authenticate :=
  pres_authenticate
    (fun s n => ⟨rfl, rfl, Nat.le_succ _, fun h => absurd h (by omega)⟩)
    (fun s n _ => ⟨rfl, rfl, Nat.le_succ _, fun h => absurd h (by omega)⟩)

theorem framesP_set : ∀ (s : Session) (n : Nat) (first : Record),
    framesP s n
      { s with defaultActivity_id := lookupJ "id" first
               defaultActivity_name := lookupJ "name" first
               defaultActivity_startDateTime :=
                 lookupJ "start_date_local" first } n :=
  fun _ _ _ => ⟨rfl, rfl, Nat.le_refl _, fun _ => rfl⟩

theorem defaultsP_trans : ∀ s₁ n₁ s₂ n₂ s₃ n₃,
    defaultsP s₁ n₁ s₂ n₂ → defaultsP s₂ n₂ s₃ n₃ → defaultsP s₁ n₁ s₃ n₃ := by
  intro s₁ n₁ s₂ n₂ s₃ n₃ h1 h2
  exact ⟨h2.1.trans h1.1, h2.2.1.trans h1.2.1, h2.2.2.trans h1.2.2⟩

theorem defaultsP_refl : ∀ s n, defaultsP s n s n := fun _ _ => ⟨rfl, rfl, rfl⟩

theorem defaults_authenticate : DefaultsFrame authenticate :=
  pres_authenticate (fun _ _ => ⟨rfl, rfl, rfl⟩) (fun _ _ _ => ⟨rfl, rfl, rfl⟩)

theorem defaultsInvP_trans : ∀ s₁ n₁ s₂ n₂ s₃ n₃,
    defaultsInvP s₁ n₁ s₂ n₂ → defaultsInvP s₂ n₂ s₃ n₃ →
    defaultsInvP s₁ n₁ s₃ n₃ := by
  intro s₁ n₁ s₂ n₂ s₃ n₃ h1 h2 htr
  obtain ⟨h1a, h1b, h1c⟩ := h1 htr
  have htr₂ : truthyO s₂.defaultActivity_id = true := by rw [h1a]; exact htr
  obtain ⟨h2a, h2b, h2c⟩ := h2 htr₂
  exact ⟨h2a.trans h1a, h2b.trans h1b, h2c.trans h1c⟩

theorem defaultsInvP_refl : ∀ s n, defaultsInvP s n s n :=
  fun _ _ _ => ⟨rfl, rfl, rfl⟩

theorem defaultsInv_authenticate : DefaultsInv authenticate :=
  pres_authenticate (fun _ _ _ => ⟨rfl, rfl, rfl⟩) (fun _ _ _ _ => ⟨rfl, rfl, rfl⟩)

theorem pres_getLastID {P : Session → Nat → Session → Nat → Prop}
    (htrans : ∀ s₁ n₁ s₂ n₂ s₃ n₃,
      P s₁ n₁ s₂ n₂ → P s₂ n₂ s₃ n₃ → P s₁ n₁ s₃ n₃)
    (hrefl : ∀ s n, P s n s n) (hauth : Pres P authenticate)
    (hset : ∀ (s : Session) (n : Nat) (first : Record),
      P s n
        { s with defaultActivity_id := lookupJ "id" first
                 defaultActivity_name := lookupJ "name" first
                 defaultActivity_startDateTime :=
                   lookupJ "start_date_local" first } n)
    (b : Bool) : Pres P (getLastID b) := by
  unfold getLastID
  refine pres_mBind htrans
    (pres_retry_request htrans hrefl
      (pres_neutral hrefl fetch_activities_inner (fun env st => ⟨rfl, rfl⟩))
      hauth 3 "fetch_activities") ?_
  intro data
  rcases data.jsonList with _ | parsed
  · exact pres_neutral hrefl _ (fun env st => ⟨rfl, rfl⟩)
  · rcases parsed with _ | ⟨first, rest⟩
    · exact pres_neutral hrefl _ (fun env st => ⟨rfl, rfl⟩)
    · refine pres_mBind htrans ?_
        (fun _ => pres_neutral hrefl _ (fun env st => ⟨rfl, rfl⟩))
      cases b
      · exact pres_neutral hrefl _ (fun env st => ⟨rfl, rfl⟩)
      · intro env st
        exact hset st.sess st.authCount first

theorem pres_getLastID_false {P : Session → Nat → Session → Nat → Prop}
    (htrans : ∀ s₁ n₁ s₂ n₂ s₃ n₃,
      P s₁ n₁ s₂ n₂ → P s₂ n₂ s₃ n₃ → P s₁ n₁ s₃ n₃)
    (hrefl : ∀ s n, P s n s n) (hauth : Pres P authenticate) :
    Pres P (getLastID false) := by
  unfold getLastID
  refine pres_mBind htrans
    (pres_retry_request htrans hrefl
      (pres_neutral hrefl fetch_activities_inner (fun env st => ⟨rfl, rfl⟩))
      hauth 3 "fetch_activities") ?_
  intro data
  rcases data.jsonList with _ | parsed
  · exact pres_neutral hrefl _ (fun env st => ⟨rfl, rfl⟩)
  · rcases parsed with _ | ⟨first, rest⟩
    · exact pres_neutral hrefl _ (fun env st => ⟨rfl, rfl⟩)
    · refine pres_mBind htrans ?_
        (fun _ => pres_neutral hrefl _ (fun env st => ⟨rfl, rfl⟩))
      exact pres_neutral hrefl _ (fun env st => ⟨rfl, rfl⟩)

theorem pres_resolverInner {P : Session → Nat → Session → Nat → Prop}
    (htrans : ∀ s₁ n₁ s₂ n₂ s₃ n₃,
      P s₁ n₁ s₂ n₂ → P s₂ n₂ s₃ n₃ → P s₁ n₁ s₃ n₃)
    (hrefl : ∀ s n, P s n s n) (hauth : Pres P authenticate)
    (hset : ∀ (s : Session) (n : Nat) (first : Record),
      P s n
        { s with defaultActivity_id := lookupJ "id" first
                 defaultActivity_name := lookupJ "name" first
                 defaultActivity_startDateTime :=
                   lookupJ "start_date_local" first } n)
    (pathFor : Option JVal → String) (params : Option String)
    (v : Option JVal) : Pres P (resolverInner pathFor params v) := by
  unfold resolverInner
  refine pres_mBind htrans
    (pres_neutral hrefl mGetSession (fun env st => ⟨rfl, rfl⟩)) ?_
  intro s
  by_cases h1 : truthyO v = true
  · rw [if_pos h1]
    exact pres_neutral hrefl _ (fun env st => ⟨rfl, rfl⟩)
  · rw [if_neg h1]
    by_cases h2 : truthyO s.defaultActivity_id = true
    · rw [if_pos h2]
      exact pres_mBind htrans
        (pres_neutral hrefl _ (fun env st => ⟨rfl, rfl⟩))
        (fun _ => pres_neutral hrefl _ (fun env st => ⟨rfl, rfl⟩))
    · rw [if_neg h2]
      refine pres_mBind htrans
        (pres_neutral hrefl _ (fun env st => ⟨rfl, rfl⟩)) ?_
      intro _
      refine pres_mBind htrans
        (pres_getLastID htrans hrefl hauth hset true) ?_
      intro w
      exact pres_neutral hrefl _ (fun env st => ⟨rfl, rfl⟩)

theorem pres_get_activities_data {P : Session → Nat → Session → Nat → Prop}
    (htrans : ∀ s₁ n₁ s₂ n₂ s₃ n₃,
      P s₁ n₁ s₂ n₂ → P s₂ n₂ s₃ n₃ → P s₁ n₁ s₃ n₃)
    (hrefl : ∀ s n, P s n s n) (hauth : Pres P authenticate)
    (args : List String) : Pres P (get_activities_data args) := by
  unfold get_activities_data
  refine pres_mBind htrans
    (pres_retry_request htrans hrefl
      (pres_neutral hrefl fetch_activities_inner (fun env st => ⟨rfl, rfl⟩))
      hauth 3 "fetch_activities") ?_
  intro data
  refine pres_neutral hrefl _ ?_
  intro env st
  constructor <;>
    (rcases data.jsonList with _ | parsed
     · rfl
     · rcases hpa : projectAll (if args = [] then defaultKeys else args) parsed
         with e | out <;>
         simp [hpa, mThrow, mPure, List.isEmpty_iff])

/-- All the public operations satisfy the frame relation `framesP`. -/
theorem frames_all_ops :
    (∀ b, Frames (getLastID b)) ∧
    Frames fetch_athlete ∧ Frames fetch_activities ∧
    Frames fetch_segmentsStarred ∧
    (∀ v, Frames (fetch_activity v)) ∧
    (∀ v ks, Frames (fetch_stream v ks)) ∧
    (∀ v, Frames (fetch_segments v)) ∧
    (∀ args, Frames (get_activities_data args)) ∧
    (∀ ft p, Frames (get_data ft p)) := by
  have hT := framesP_trans
  have hR := framesP_refl
  have hA := frames_authenticate
  have hS := framesP_set
  have hgl : ∀ b, Frames (getLastID b) := fun b => pres_getLastID hT hR hA hS b
  have hath : Frames fetch_athlete :=
    pres_retry_request hT hR
      (pres_neutral hR fetch_athlete_inner (fun env st => ⟨rfl, rfl⟩)) hA 3 "fetch_athlete"
  have hacts : Frames fetch_activities :=
    pres_retry_request hT hR
      (pres_neutral hR fetch_activities_inner (fun env st => ⟨rfl, rfl⟩)) hA 3 "fetch_activities"
  have hseg0 : Frames fetch_segmentsStarred :=
    pres_retry_request hT hR
      (pres_neutral hR fetch_segmentsStarred_inner (fun env st => ⟨rfl, rfl⟩)) hA 3 "fetch_segmentsStarred"
  have hact : ∀ v, Frames (fetch_activity v) := fun v =>
    pres_retry_request hT hR
      (pres_resolverInner hT hR hA hS (fun w => "/activities/" ++ pyStrO w) none v)
      hA 3 "fetch_activity"
  have hstr : ∀ v ks, Frames (fetch_stream v ks) := fun v ks =>
    pres_retry_request hT hR
      (pres_resolverInner hT hR hA hS
        (fun w => "/activities/" ++ pyStrO w ++ "/streams") (streamParams ks) v)
      hA 3 "fetch_stream"
  have hsegs : ∀ v, Frames (fetch_segments v) := fun v =>
    pres_retry_request hT hR
      (pres_resolverInner hT hR hA hS (fun w => "/segments/" ++ pyStrO w) none v)
      hA 3 "fetch_segments"
  have hgad : ∀ args, Frames (get_activities_data args) := fun args =>
    pres_get_activities_data hT hR hA args
  refine ⟨hgl, hath, hacts, hseg0, hact, hstr, hsegs, hgad, ?_⟩
  intro ft p
  unfold get_data
  by_cases h : ("fetch_" ++ ft) ∈ dirSelf
  · rw [if_pos h]
    refine pres_mBind hT ?_
      (fun r => pres_neutral hR _ (fun env st => ⟨rfl, rfl⟩))
    unfold dispatchFetch
    split_ifs
    · exact hath
    · exact hacts
    · exact hact p.act_id
    · exact hstr p.act_id p.keys
    · exact hseg0
    · exact hsegs p.act_id
    · exact pres_neutral hR _ (fun env st => ⟨rfl, rfl⟩)
  · rw [if_neg h]
    exact pres_mBind hT
      (pres_neutral hR _ (fun env st => ⟨rfl, rfl⟩))
      (fun _ => pres_neutral hR _ (fun env st => ⟨rfl, rfl⟩))

theorem defaultsInv_resolverInner (pathFor : Option JVal → String)
    (params : Option String) (v : Option JVal) :
    DefaultsInv (resolverInner pathFor params v) := by
  intro env st htr
  by_cases h1 : truthyO v = true
  · have e : resolverInner pathFor params v env st =
        httpGetPath (pathFor v) params env st := by
      simp [resolverInner, mBind, mGetSession, h1]
    rw [e]
    exact ⟨rfl, rfl, rfl⟩
  · have e : resolverInner pathFor params v env st =
        (mBind (mPrint "No activity provided - Getting default activity") fun _ =>
          httpGetPath (pathFor st.sess.defaultActivity_id) params) env st := by
      simp [resolverInner, mBind, mGetSession, h1, htr]
    rw [e]
    exact ⟨rfl, rfl, rfl⟩

/-- C8: across the public operations, the access token is written only
through authenticate (a strictly increased auth-call count), the cached
default-activity triple is written only through getLastID with
setDefault = true — in particular every operation that never reaches the
lazy fallback leaves it untouched — and no operation ever writes the
credentials or the base URL. -/
theorem c8_session_field_frame :
    Frames authenticate ∧
    (∀ b, Frames (getLastID b)) ∧
    (∀ args, Frames (get_activities_data args)) ∧
    Frames fetch_athlete ∧ Frames fetch_activities ∧
    Frames fetch_segmentsStarred ∧
    (∀ v, Frames (fetch_activity v)) ∧
    (∀ v ks, Frames (fetch_stream v ks)) ∧
    (∀ v, Frames (fetch_segments v)) ∧
    (∀ ft p, Frames (get_data ft p)) ∧
    DefaultsFrame authenticate ∧
    DefaultsFrame (getLastID false) ∧
    (∀ args, DefaultsFrame (get_activities_data args)) ∧
    DefaultsFrame fetch_athlete ∧ DefaultsFrame fetch_activities ∧
    DefaultsFrame fetch_segmentsStarred ∧
    (∀ v, truthyO v = true →
      DefaultsFrame (fetch_activity v) ∧ DefaultsFrame (fetch_segments v)) ∧
    (∀ v ks, truthyO v = true → DefaultsFrame (fetch_stream v ks)) ∧
    (∀ v, DefaultsInv (fetch_activity v)) ∧
    (∀ v ks, DefaultsInv (fetch_stream v ks)) ∧
    (∀ v, DefaultsInv (fetch_segments v)) := by
  have hF := frames_all_ops
  have hDT := defaultsP_trans
  have hDR := defaultsP_refl
  have hDA := defaults_authenticate
  have hIT := defaultsInvP_trans
  have hIR := defaultsInvP_refl
  have hIA := defaultsInv_authenticate
  have hDget : DefaultsFrame fetch_athlete :=
    pres_retry_request hDT hDR
      (pres_neutral hDR fetch_athlete_inner (fun env st => ⟨rfl, rfl⟩))
      hDA 3 "fetch_athlete"
  have hDacts : DefaultsFrame fetch_activities :=
    pres_retry_request hDT hDR
      (pres_neutral hDR fetch_activities_inner (fun env st => ⟨rfl, rfl⟩))
      hDA 3 "fetch_activities"
  have hDseg0 : DefaultsFrame fetch_segmentsStarred :=
    pres_retry_request hDT hDR
      (pres_neutral hDR fetch_segmentsStarred_inner (fun env st => ⟨rfl, rfl⟩))
      hDA 3 "fetch_segmentsStarred"
  refine ⟨frames_authenticate, hF.1, hF.2.2.2.2.2.2.2.1, hF.2.1, hF.2.2.1,
    hF.2.2.2.1, hF.2.2.2.2.1, hF.2.2.2.2.2.1, hF.2.2.2.2.2.2.1,
    hF.2.2.2.2.2.2.2.2, hDA,
    pres_getLastID_false hDT hDR hDA,
    fun args => pres_get_activities_data hDT hDR hDA args,
    hDget, hDacts, hDseg0, ?_, ?_, ?_, ?_, ?_⟩
  · intro v hv
    constructor
    · rw [fetch_activity_truthy v hv]
      exact pres_retry_request hDT hDR
        (pres_neutral hDR _ (fun env st => ⟨rfl, rfl⟩)) hDA 3 "fetch_activity"
    · rw [fetch_segments_truthy v hv]
      exact pres_retry_request hDT hDR
        (pres_neutral hDR _ (fun env st => ⟨rfl, rfl⟩)) hDA 3 "fetch_segments"
  · intro v ks hv
    rw [fetch_stream_truthy v ks hv]
    exact pres_retry_request hDT hDR
      (pres_neutral hDR _ (fun env st => ⟨rfl, rfl⟩)) hDA 3 "fetch_stream"
  · intro v
    exact pres_retry_request hIT hIR
      (defaultsInv_resolverInner (fun w => "/activities/" ++ pyStrO w) none v)
      hIA 3 "fetch_activity"
  · intro v ks
    exact pres_retry_request hIT hIR
      (defaultsInv_resolverInner
        (fun w => "/activities/" ++ pyStrO w ++ "/streams") (streamParams ks) v)
      hIA 3 "fetch_stream"
  · intro v
    exact pres_retry_request hIT hIR
      (defaultsInv_resolverInner (fun w => "/segments/" ++ pyStrO w) none v)
      hIA 3 "fetch_segments"

theorem c8_session_field_frame_witness :
    (fetch_athlete envOk200 stW).2.sess.config_parameters =
      stW.sess.config_parameters ∧
    (fetch_athlete envOk200 stW).2.sess.access_token =
      stW.sess.access_token ∧
    (fetch_activity (some (.jint 0)) envOk200 stDef7).2.sess.defaultActivity_id =
      stDef7.sess.defaultActivity_id ∧
    (fetch_segments (some (.jint 42)) envOk200 stW).2.sess.defaultActivity_id =
      stW.sess.defaultActivity_id := by
  have hc := c8_session_field_frame
  have h1 := hc.2.2.2.1 envOk200 stW
  have h2 := (hc.2.2.2.2.2.2.2.2.2.2.2.2.2.2.2.2.2.2.1 (some (.jint 0)))
      envOk200 stDef7
  have h3 := ((hc.2.2.2.2.2.2.2.2.2.2.2.2.2.2.2.2.1 (some (.jint 42))
      (by decide)).2) envOk200 stW
  exact ⟨h1.1, h1.2.2.2 (by decide), (h2 (by decide)).1, h3.1⟩

/-! ### C7: named dispatch -/

theorem mBind_pure_some (x : M Response) (env : Env) (st : St) :
    mBind x (fun r => mPure (some r)) env st =
      ((x env st).1.map some, (x env st).2) := by
  unfold mBind mPure
  rcases hx : x env st with ⟨r, st₁⟩
  cases r <;> simp [Except.map]

/-- C7: get_data resolves the fetch type by exact, case-sensitive name
lookup: each of the six catalog names dispatches to the very same operation
as calling it directly with the same parameters, wrapping its outcome in
`some`; any other name prints the catalog of the six valid operation names
and returns None without raising. -/
theorem c7_get_data_dispatch :
    (∀ p env st, get_data "athlete" p env st =
      ((fetch_athlete env st).1.map some, (fetch_athlete env st).2)) ∧
    (∀ p env st, get_data "activities" p env st =
      ((fetch_activities env st).1.map some, (fetch_activities env st).2)) ∧
    (∀ p env st, get_data "activity" p env st =
      ((fetch_activity p.act_id env st).1.map some,
       (fetch_activity p.act_id env st).2)) ∧
    (∀ p env st, get_data "stream" p env st =
      ((fetch_stream p.act_id p.keys env st).1.map some,
       (fetch_stream p.act_id p.keys env st).2)) ∧
    (∀ p env st, get_data "segmentsStarred" p env st =
      ((fetch_segmentsStarred env st).1.map some,
       (fetch_segmentsStarred env st).2)) ∧
    (∀ p env st, get_data "segments" p env st =
      ((fetch_segments p.act_id env st).1.map some,
       (fetch_segments p.act_id env st).2)) ∧
    availMethod = ["activities", "activity", "athlete", "segments",
      "segmentsStarred", "stream"] ∧
    (∀ ft p env st, ("fetch_" ++ ft) ∉ dirSelf →
      get_data ft p env st =
        (.ok none, { st with prints := st.prints ++ [availMsg] })) := by
  refine ⟨?_, ?_, ?_, ?_, ?_, ?_, by decide, ?_⟩
  · intro p env st
    rw [show get_data "athlete" p =
          mBind fetch_athlete (fun r => mPure (some r)) from rfl,
        mBind_pure_some]
  · intro p env st
    rw [show get_data "activities" p =
          mBind fetch_activities (fun r => mPure (some r)) from rfl,
        mBind_pure_some]
  · intro p env st
    rw [show get_data "activity" p =
          mBind (fetch_activity p.act_id) (fun r => mPure (some r)) from rfl,
        mBind_pure_some]
  · intro p env st
    rw [show get_data "stream" p =
          mBind (fetch_stream p.act_id p.keys) (fun r => mPure (some r)) from rfl,
        mBind_pure_some]
  · intro p env st
    rw [show get_data "segmentsStarred" p =
          mBind fetch_segmentsStarred (fun r => mPure (some r)) from rfl,
        mBind_pure_some]
  · intro p env st
    rw [show get_data "segments" p =
          mBind (fetch_segments p.act_id) (fun r => mPure (some r)) from rfl,
        mBind_pure_some]
  · intro ft p env st h
    unfold get_data
    rw [if_neg h]
    rfl

theorem c7_get_data_dispatch_witness :
    ("fetch_" ++ "nonexistent") ∉ dirSelf ∧
    get_data "nonexistent" {} envOk200 stW =
      (.ok none, { stW with prints := stW.prints ++ [availMsg] }) := by
  refine ⟨by decide, ?_⟩
  exact c7_get_data_dispatch.2.2.2.2.2.2.2 "nonexistent" {} envOk200 stW
    (by decide)
